import Mathlib

/-
  Verification development for the rxjs-ai chat/completion core.

  The definitions below are a shallow embedding of the TypeScript sources:
    * src/ai/types.ts                (chat data model)
    * src/ai/createChatController.ts (chat session state machine)
    * src/ai/language-model.ts       (rich model data model)
    * src/ai/streamText.ts           (streamText + applyAbortSignal)
    * src/ai/generateText.ts         (generateText)

  RxJS observables are embedded operationally: the chat controller is a
  state-transition function driven by operations (public calls `send`,
  `retryLast`, `cancel`, plus `deliver`, which models the active
  subscription's callback receiving one adapter emission).  Emissions are
  delivered as separate transition steps after `subscribe` returns, which is
  the asynchronous (callback-driven) delivery regime the controller is
  written for; a delivery only reaches the handler while its subscription is
  the controller's active, non-torn-down subscription, matching RxJS
  subscriber-closing semantics.  `streamText`/`generateText` are embedded
  denotationally: a model capability is a function from the built request to
  a script of what its observable would emit, and subscribing a derived
  sequence is evaluated to the full outcome of that single subscription.
-/

namespace RxjsAi

/-- `ChatRole` from types.ts: "system" | "user" | "assistant" | "tool". -/
inductive ChatRole where
  | system
  | user
  | assistant
  | tool
deriving DecidableEq, Repr

/-- `ChatStatus` from types.ts: "idle" | "loading" | "streaming" | "error" | "cancelled". -/
inductive ChatStatus where
  | idle
  | loading
  | streaming
  | error
  | cancelled
deriving DecidableEq, Repr

/-- Error values flowing through the failure channels.  `err n` stands for an
arbitrary adapter/model error instance (TS `unknown`), `abortException` for the
`DOMException("The operation was aborted.", "AbortError")` that
`applyAbortSignal` constructs when the signal carries no reason. -/
inductive ErrVal where
  | err (n : Nat)
  | abortException
deriving DecidableEq, Repr

/-- The whitespace test of JS `String.prototype.trim`, restricted to the ASCII
whitespace characters (the Unicode space characters it also strips behave
identically and are elided). -/
def isJsWhitespace (c : Char) : Bool :=
  c == ' ' || c == '\t' || c == '\n' || c == '\r' || c == Char.ofNat 11 || c == Char.ofNat 12

/-- JS `String.prototype.trim` (used by `send` as `content.trim()`): strips
leading and trailing whitespace. -/
def jsTrim (s : String) : String :=
  String.mk
    (((s.data.dropWhile fun c => isJsWhitespace c).reverse.dropWhile fun c =>
        isJsWhitespace c).reverse)

/-- `ChatMessage` from types.ts.  `meta?: Record<string, unknown>` is embedded
as an optional association list with string payloads (the values are opaque to
the core). -/
structure ChatMessage where
  id : String
  role : ChatRole
  content : String
  createdAt : Nat
  meta : Option (List (String × String)) := none
deriving DecidableEq, Repr

/-- `ChatChunk` from types.ts: `string | { content: string; done?: boolean }`.
`done?: boolean` is embedded with `Boolean(chunk.done)` already applied by the
`obj` constructor carrying a `Bool`. -/
inductive ChatChunk where
  | str (s : String)
  | obj (content : String) (done : Bool)
deriving DecidableEq, Repr

/-- `chunkToText` from createChatController.ts. -/
def chunkToText (chunk : ChatChunk) : String :=
  match chunk with
  | .str s => s
  | .obj content _ => content

/-- `chunkIsDone` from createChatController.ts. -/
def chunkIsDone (chunk : ChatChunk) : Bool :=
  match chunk with
  | .str _ => false
  | .obj _ done => done

/-- One emission the active subscription's observer can receive from the
adapter: `next` (a chunk), `errorEv` (failure channel) or `complete`. -/
inductive AdapterEvent where
  | next (chunk : ChatChunk)
  | errorEv (e : ErrVal)
  | complete
deriving DecidableEq, Repr

namespace Chat

/-- The pair of per-completion references the controller closes over:
`activeSubscription` (identified by a serial number) together with the
`assistantMessageId` captured by `runCompletion`'s handlers. -/
structure ActiveReq where
  subId : Nat
  assistantId : String
deriving DecidableEq, Repr

/-- `CreateChatControllerOptions` (the parts with semantic content): `now` and
`idGenerator` are indexed by an internal call counter so that deterministic
generators are expressible, `initialMessages` seeds the message subject. -/
structure Cfg where
  idGen : Nat → String
  nowFn : Nat → Nat
  initialMessages : List ChatMessage

/-- The controller's mutable state: the three behavior subjects
(`messages`/`status`/`error`), the retry baseline `lastRequestMessages`, the
active subscription/abort-controller pair, the generator call counter `tick`,
a serial counter for subscriptions, and `msgLog`, the emission log of the
messages subject (one entry per `setMessages` call, seeded with the subject's
initial value). -/
structure CState where
  messages : List ChatMessage
  status : ChatStatus
  error : Option ErrVal
  lastRequestMessages : Option (List ChatMessage)
  active : Option ActiveReq
  tick : Nat
  subCounter : Nat
  msgLog : List (List ChatMessage)
deriving DecidableEq, Repr

/-- Controller state right after `createChatController`: subjects hold
`[...initialMessages]`, "idle", `null`. -/
def initState (cfg : Cfg) : CState :=
  { messages := cfg.initialMessages
    status := .idle
    error := none
    lastRequestMessages := none
    active := none
    tick := 0
    subCounter := 0
    msgLog := [cfg.initialMessages] }

/-- `setMessages`: pushes on the messages subject (recorded in `msgLog`) and
re-emits state. -/
def setMessages (s : CState) (messages : List ChatMessage) : CState :=
  { s with messages := messages, msgLog := s.msgLog ++ [messages] }

/-- `setStatus`: pushes on the status subject and re-emits state. -/
def setStatus (s : CState) (status : ChatStatus) : CState :=
  { s with status := status }

/-- `setError`: pushes on the error subject and re-emits state. -/
def setError (s : CState) (error : Option ErrVal) : CState :=
  { s with error := error }

/-- `createMessage` from createChatController.ts: draws one id/timestamp from
the generators (advancing the call counter) and attaches `meta` only when it
has at least one key. -/
def createMessage (cfg : Cfg) (s : CState) (role : ChatRole) (content : String)
    (meta : List (String × String)) : ChatMessage × CState :=
  let message : ChatMessage :=
    { id := cfg.idGen s.tick
      role := role
      content := content
      createdAt := cfg.nowFn s.tick
      meta := if meta.length > 0 then some meta else none }
  (message, { s with tick := s.tick + 1 })

/-- `releaseActiveRequest`: aborts the active abort controller and
unsubscribes the active subscription (after which none of its callbacks can
fire again), clearing both fields. -/
def releaseActiveRequest (s : CState) : CState :=
  { s with active := none }

/-- `finishRequest`: release, then `setStatus("idle")`. -/
def finishRequest (s : CState) : CState :=
  setStatus (releaseActiveRequest s) .idle

/-- `appendDelta`: for a non-empty delta, `setStatus("streaming")` then map
the message list, appending the delta to the content of the message whose id
is `assistantMessageId`. -/
def appendDelta (s : CState) (assistantMessageId : String) (textDelta : String) : CState :=
  if textDelta.length > 0 then
    setMessages (setStatus s .streaming)
      (s.messages.map fun message =>
        if message.id = assistantMessageId then
          { message with content := message.content ++ textDelta }
        else message)
  else s

/-- `runCompletion` up to and including the `subscribe` call: records the
retry baseline, releases any previous request, transitions to
loading/no-error, allocates a fresh abort controller and registers the new
subscription (its emissions arrive later as `deliver` steps). -/
def runCompletion (s : CState) (baseMessages : List ChatMessage)
    (assistantMessageId : String) : CState :=
  let s := { s with lastRequestMessages := some baseMessages }
  let s := releaseActiveRequest s
  let s := setStatus s .loading
  let s := setError s none
  { s with
    active := some { subId := s.subCounter, assistantId := assistantMessageId }
    subCounter := s.subCounter + 1 }

/-- `send` from createChatController.ts. -/
def send (cfg : Cfg) (s : CState) (content : String)
    (meta : List (String × String)) : CState :=
  let text := jsTrim content
  if text.length = 0 then s
  else
    let s := releaseActiveRequest s
    let currentMessages := s.messages
    let (userMessage, s) := createMessage cfg s .user text meta
    let (assistantMessage, s) := createMessage cfg s .assistant "" []
    let s := setMessages s (currentMessages ++ [userMessage, assistantMessage])
    runCompletion s (currentMessages ++ [userMessage]) assistantMessage.id

/-- `retryLast` from createChatController.ts. -/
def retryLast (cfg : Cfg) (s : CState) : CState :=
  match s.lastRequestMessages with
  | none => s
  | some lastMessages =>
    let s := releaseActiveRequest s
    let (assistantMessage, s) := createMessage cfg s .assistant "" []
    let s := setMessages s (lastMessages ++ [assistantMessage])
    runCompletion s lastMessages assistantMessage.id

/-- `cancel` from createChatController.ts. -/
def cancel (s : CState) : CState :=
  setStatus (releaseActiveRequest s) .cancelled

/-- The observer handlers `runCompletion` installs on the adapter path:
`next` runs `appendDelta` and, when the chunk's done flag is set,
`finishRequest`; `error` runs `setError`/`setStatus("error")`/release;
`complete` runs `finishRequest`.  (The `streamText` path installs the same
handlers with the deltas arriving as plain strings, i.e. `ChatChunk.str`.) -/
def handleEvent (s : CState) (assistantId : String) (event : AdapterEvent) : CState :=
  match event with
  | .next chunk =>
    let s := appendDelta s assistantId (chunkToText chunk)
    if chunkIsDone chunk then finishRequest s else s
  | .errorEv e => releaseActiveRequest (setStatus (setError s (some e)) .error)
  | .complete => finishRequest s

/-- Delivery of one emission from subscription `subId`: the handler fires only
while that subscription is still the registered, non-torn-down active
subscription; emissions of an unsubscribed producer are dropped by RxJS. -/
def deliver (s : CState) (subId : Nat) (event : AdapterEvent) : CState :=
  match s.active with
  | some active => if active.subId = subId then handleEvent s active.assistantId event else s
  | none => s

/-- One controller operation: a public call or an adapter emission. -/
inductive Op where
  | send (content : String) (meta : List (String × String))
  | retryLast
  | cancel
  | deliver (subId : Nat) (event : AdapterEvent)
deriving DecidableEq, Repr

/-- Whether an operation is an adapter emission rather than a public call. -/
def Op.isDeliver : Op → Bool
  | .deliver _ _ => true
  | _ => false

/-- Step function of the controller transition system. -/
def step (cfg : Cfg) (s : CState) (op : Op) : CState :=
  match op with
  | .send content meta => send cfg s content meta
  | .retryLast => retryLast cfg s
  | .cancel => cancel s
  | .deliver subId event => deliver s subId event

/-- Run a list of operations from a given state. -/
def runFrom (cfg : Cfg) (s : CState) (ops : List Op) : CState :=
  ops.foldl (step cfg) s

/-- Run a list of operations on a freshly created controller. -/
def run (cfg : Cfg) (ops : List Op) : CState :=
  runFrom cfg (initState cfg) ops

/-- The user message a non-blank `send` constructs. -/
def sentUserMessage (cfg : Cfg) (s : CState) (content : String)
    (meta : List (String × String)) : ChatMessage :=
  { id := cfg.idGen s.tick
    role := .user
    content := jsTrim content
    createdAt := cfg.nowFn s.tick
    meta := if meta.length > 0 then some meta else none }

/-- The assistant placeholder a non-blank `send` (or a baseline-bearing
`retryLast`) constructs right after drawing the user message's id. -/
def placeholderMessage (cfg : Cfg) (tick : Nat) : ChatMessage :=
  { id := cfg.idGen tick
    role := .assistant
    content := ""
    createdAt := cfg.nowFn tick
    meta := none }

/-- The baseline-length invariant of the controller: whenever a retry baseline
is retained, the message list is exactly one entry (the current assistant
placeholder) longer than the baseline. -/
def BaselineInv (s : CState) : Prop :=
  ∀ l, s.lastRequestMessages = some l → s.messages.length = l.length + 1

end Chat

namespace Sdk

/-- `FinishReason` from language-model.ts. -/
inductive FinishReason where
  | stop
  | lengthLimit
  | toolCalls
  | errorReason
  | unknownReason
deriving DecidableEq, Repr

/-- `TokenUsage` from language-model.ts. -/
structure TokenUsage where
  promptTokens : Nat
  completionTokens : Nat
  totalTokens : Nat
deriving DecidableEq, Repr

/-- `MessagePart` from language-model.ts.  The opaque payloads of tool parts
(`args: Record<string, unknown>`, `result: unknown`) are elided; the core
never inspects them. -/
inductive MessagePart where
  | text (text : String)
  | toolCall (toolCallId : String) (toolName : String)
  | toolResult (toolCallId : String) (toolName : String)
deriving DecidableEq, Repr

/-- `Message` from language-model.ts. -/
structure Message where
  role : ChatRole
  content : List MessagePart
deriving DecidableEq, Repr

/-- `TextResult` from language-model.ts. -/
structure TextResult where
  text : String
  usage : TokenUsage
  finishReason : FinishReason
  messages : List Message
deriving DecidableEq, Repr

/-- `TextStreamEvent` from language-model.ts. -/
inductive TextStreamEvent where
  | textDelta (textDelta : String)
  | finish (text : String) (usage : TokenUsage) (finishReason : FinishReason)
  | errorEv (e : ErrVal)
deriving DecidableEq, Repr

/-- An `AbortSignal`: the aborted flag plus the optional abort reason
(`signal.reason`). -/
structure AbortSignal where
  aborted : Bool
  reason : Option ErrVal
deriving DecidableEq, Repr

/-- The error `applyAbortSignal` delivers for an aborted signal:
`signal.reason ?? new DOMException("The operation was aborted.", "AbortError")`. -/
def abortErrorOf (signal : AbortSignal) : ErrVal :=
  signal.reason.getD .abortException

/-- How a subscribed-to observable run ends: regular completion, the failure
channel, or never (producer stays open). -/
inductive Terminal where
  | complete
  | fail (e : ErrVal)
  | open_
deriving DecidableEq, Repr

/-- What one subscription of the observable returned by `doStream` would do:
emit `events` in order, then end as `terminal` says. -/
structure StreamScript where
  events : List TextStreamEvent
  terminal : Terminal
deriving DecidableEq, Repr

/-- What one subscription of the observable returned by `doGenerate` would do:
emit exactly one `TextResult` then complete, fail, or hang. -/
inductive GenScript where
  | value (result : TextResult)
  | fail (e : ErrVal)
  | hang
deriving DecidableEq, Repr

/-- The outcome of subscribing one of the derived sequences once:
the values it emits in order, how it ends, whether the capability-returned
source observable was ever subscribed (i.e. whether the underlying request
work was started), and the arguments of the `onFinish` calls made during the
run. -/
structure SubOutcome (α : Type) where
  emitted : List α
  terminal : Terminal
  sourceSubscribed : Bool
  finishCalls : List TextResult
deriving DecidableEq, Repr

/-- `LanguageModelRequest` from language-model.ts (optional fields as
`Option`; the "only explicitly-set fields are included" forwarding collapses
to the `Option` values themselves). -/
structure LanguageModelRequest where
  messages : List Message
  system : Option String
  temperature : Option Nat
  maxTokens : Option Nat
  topP : Option Nat
  topK : Option Nat
  stopSequences : Option (List String)
  signal : Option AbortSignal
deriving DecidableEq, Repr

/-- `LanguageModel` from language-model.ts, with each capability method
embedded denotationally as the script of the observable it returns for a
request. -/
structure LanguageModel where
  modelId : String
  doGenerate : LanguageModelRequest → GenScript
  doStream : LanguageModelRequest → StreamScript

/-- `StreamTextOptions` / `GenerateTextOptions` (`onFinish` is tracked as a
presence flag; its calls are recorded in the outcome). -/
structure StreamTextOptions where
  messages : List Message
  system : Option String := none
  temperature : Option Nat := none
  maxTokens : Option Nat := none
  topP : Option Nat := none
  topK : Option Nat := none
  stopSequences : Option (List String) := none
  signal : Option AbortSignal := none
  hasOnFinish : Bool := false

/-- `buildRequest` from streamText.ts / generateText.ts. -/
def buildRequest (options : StreamTextOptions) : LanguageModelRequest :=
  { messages := options.messages
    system := options.system
    temperature := options.temperature
    maxTokens := options.maxTokens
    topP := options.topP
    topK := options.topK
    stopSequences := options.stopSequences
    signal := options.signal }

/-- Subscribing the raw observable a capability returned: all scripted events
are delivered, the source counts as subscribed, no `onFinish` tap yet. -/
def sourceRun (script : StreamScript) : SubOutcome TextStreamEvent :=
  { emitted := script.events
    terminal := script.terminal
    sourceSubscribed := true
    finishCalls := [] }

/-- `applyAbortSignal` (identical in streamText.ts and generateText.ts),
evaluated for a subscription during which the signal does not change: with no
signal it is the identity; with a signal already aborted at subscribe time it
errors immediately with `signal.reason ?? DOMException(AbortError)` and never
subscribes the source. -/
def applyAbortSignal (signal : Option AbortSignal) (source : SubOutcome α) : SubOutcome α :=
  match signal with
  | none => source
  | some s =>
    if s.aborted then
      { emitted := [], terminal := .fail (abortErrorOf s), sourceSubscribed := false,
        finishCalls := [] }
    else source

/-- The `tap` stage of `streamText`: for every `finish`-kind event flowing
through, when an `onFinish` callback was supplied, it is called with
`{text, usage, finishReason, messages: [...options.messages]}`. -/
def tapOnFinish (hasOnFinish : Bool) (messages : List Message)
    (o : SubOutcome TextStreamEvent) : SubOutcome TextStreamEvent :=
  { o with
    finishCalls :=
      if hasOnFinish then
        o.emitted.filterMap fun event =>
          match event with
          | .finish text usage finishReason =>
            some { text := text, usage := usage, finishReason := finishReason,
                   messages := messages }
          | _ => none
      else [] }

/-- The `filter`+`map` stage deriving `delta$` from `stream$`. -/
def deltasOf (o : SubOutcome TextStreamEvent) : SubOutcome String :=
  { emitted :=
      o.emitted.filterMap fun event =>
        match event with
        | .textDelta textDelta => some textDelta
        | _ => none
    terminal := o.terminal
    sourceSubscribed := o.sourceSubscribed
    finishCalls := o.finishCalls }

/-- `scan ((acc, delta) => acc + delta, "")`: one emission per delta, each the
concatenation of all deltas so far. -/
def scanConcat (acc : String) (deltas : List String) : List String :=
  match deltas with
  | [] => []
  | d :: rest => (acc ++ d) :: scanConcat (acc ++ d) rest

/-- The `scan` stage deriving `text$` from `delta$`. -/
def accumulatedOf (o : SubOutcome String) : SubOutcome String :=
  { o with emitted := scanConcat "" o.emitted }

/-- The value `streamText` returns: the request it made (the capability method
`doStream` is invoked once, eagerly, to obtain the source observable), and for
each derived sequence the outcome of subscribing it once.  `share()` makes
concurrent subscribers reuse the single upstream run, so each per-sequence
outcome below is the pipeline applied to the one shared run. -/
structure StreamTextResult where
  doStreamCalls : List LanguageModelRequest
  streamRun : SubOutcome TextStreamEvent
  deltaRun : SubOutcome String
  textRun : SubOutcome String
deriving DecidableEq, Repr

/-- `streamText` from streamText.ts. -/
def streamText (model : LanguageModel) (options : StreamTextOptions) : StreamTextResult :=
  let request := buildRequest options
  let script := model.doStream request
  let shared :=
    tapOnFinish options.hasOnFinish options.messages
      (applyAbortSignal options.signal (sourceRun script))
  { doStreamCalls := [request]
    streamRun := shared
    deltaRun := deltasOf shared
    textRun := accumulatedOf (deltasOf shared) }

/-- Subscribing the observable `doGenerate` returned. -/
def genRun (script : GenScript) : SubOutcome TextResult :=
  match script with
  | .value result =>
    { emitted := [result], terminal := .complete, sourceSubscribed := true, finishCalls := [] }
  | .fail e =>
    { emitted := [], terminal := .fail e, sourceSubscribed := true, finishCalls := [] }
  | .hang =>
    { emitted := [], terminal := .open_, sourceSubscribed := true, finishCalls := [] }

/-- The value `generateText` returns: `doGenerate` is invoked once, eagerly,
and the returned sequence is the abort-guarded single-value observable. -/
structure GenerateTextResult where
  doGenerateCalls : List LanguageModelRequest
  resultRun : SubOutcome TextResult
deriving DecidableEq, Repr

/-- `generateText` from generateText.ts. -/
def generateText (model : LanguageModel) (options : StreamTextOptions) : GenerateTextResult :=
  let request := buildRequest options
  { doGenerateCalls := [request]
    resultRun := applyAbortSignal options.signal (genRun (model.doGenerate request)) }

/-- Whether a stream event is of the `finish` kind. -/
def isFinishEvent : TextStreamEvent → Bool
  | .finish _ _ _ => true
  | _ => false

/-- The `TextResult` the `tap` stage packages for a `finish` event (and `none`
for the other event kinds). -/
def finishResultOf (messages : List Message) : TextStreamEvent → Option TextResult
  | .finish text usage finishReason =>
    some { text := text, usage := usage, finishReason := finishReason, messages := messages }
  | _ => none

end Sdk

/-- A concrete deterministic controller configuration used to instantiate the
universally quantified theorems: sequential ids "m0", "m1", ..., a counter
clock, and no initial messages. -/
def witCfg : Chat.Cfg :=
  { idGen := fun n => "m" ++ Nat.repr n
    nowFn := fun n => 100 + n
    initialMessages := [] }

/-- A concrete token-usage record for instantiating theorems. -/
def witUsage : Sdk.TokenUsage := { promptTokens := 10, completionTokens := 5, totalTokens := 15 }

/-- A concrete input message list for instantiating the `streamText` and
`generateText` theorems. -/
def witMessages : List Sdk.Message := [{ role := .user, content := [.text "Hi"] }]

/-- A concrete `LanguageModel` whose streaming capability emits one delta and
one finish event then completes, and whose generation capability returns one
result. -/
def witModel : Sdk.LanguageModel :=
  { modelId := "mock:test"
    doGenerate := fun _ =>
      .value { text := "Hello", usage := witUsage, finishReason := .stop, messages := [] }
    doStream := fun _ =>
      { events := [.textDelta "Hello", .finish "Hello" witUsage .stop], terminal := .complete } }

/-- Concrete options carrying a cancellation signal that is already aborted
(with no custom reason) at subscribe time. -/
def preAbortedOptions : Sdk.StreamTextOptions :=
  { messages := witMessages, signal := some { aborted := true, reason := none } }

/-- Concrete options with an `onFinish` callback supplied. -/
def onFinishOptions : Sdk.StreamTextOptions :=
  { messages := witMessages, hasOnFinish := true }

/-- A concrete `LanguageModel` whose stream emits two `finish`-kind events
before completing. -/
def doubleFinishModel : Sdk.LanguageModel :=
  { modelId := "mock:double"
    doGenerate := fun _ =>
      .value { text := "Hello", usage := witUsage, finishReason := .stop, messages := [] }
    doStream := fun _ =>
      { events := [.finish "a" witUsage .stop, .finish "a" witUsage .stop],
        terminal := .complete } }

namespace Chat

theorem appendDelta_active (s : CState) (aid d : String) :
    (appendDelta s aid d).active = s.active := by
  unfold appendDelta setMessages setStatus
  split <;> rfl

theorem appendDelta_length (s : CState) (aid d : String) :
    (appendDelta s aid d).messages.length = s.messages.length := by
  unfold appendDelta setMessages setStatus
  split <;> simp

theorem appendDelta_lastRequest (s : CState) (aid d : String) :
    (appendDelta s aid d).lastRequestMessages = s.lastRequestMessages := by
  unfold appendDelta setMessages setStatus
  split <;> rfl

theorem handleEvent_length (s : CState) (aid : String) (event : AdapterEvent) :
    (handleEvent s aid event).messages.length = s.messages.length := by
  cases event with
  | next chunk =>
    by_cases h : chunkIsDone chunk = true <;>
      simp [handleEvent, h, finishRequest, releaseActiveRequest, setStatus,
        appendDelta_length]
  | errorEv e => rfl
  | complete => rfl

theorem handleEvent_lastRequest (s : CState) (aid : String) (event : AdapterEvent) :
    (handleEvent s aid event).lastRequestMessages = s.lastRequestMessages := by
  cases event with
  | next chunk =>
    by_cases h : chunkIsDone chunk = true <;>
      simp [handleEvent, h, finishRequest, releaseActiveRequest, setStatus,
        appendDelta_lastRequest]
  | errorEv e => rfl
  | complete => rfl

theorem deliver_inactive (s : CState) (k : Nat) (event : AdapterEvent)
    (h : s.active = none) : deliver s k event = s := by
  unfold deliver
  rw [h]

theorem runFrom_deliver_only (cfg : Cfg) (s : CState) (h : s.active = none)
    (post : List Op) (hpost : ∀ op ∈ post, op.isDeliver = true) :
    runFrom cfg s post = s := by
  induction post with
  | nil => rfl
  | cons op rest ih =>
    have hop : op.isDeliver = true := hpost op (by simp)
    cases op with
    | send _ _ => simp [Op.isDeliver] at hop
    | retryLast => simp [Op.isDeliver] at hop
    | cancel => simp [Op.isDeliver] at hop
    | deliver k event =>
      have hstep : step cfg s (.deliver k event) = s := deliver_inactive s k event h
      calc runFrom cfg s (Op.deliver k event :: rest)
          = runFrom cfg (step cfg s (.deliver k event)) rest := rfl
        _ = runFrom cfg s rest := by rw [hstep]
        _ = s := ih fun op hmem => hpost op (by simp [hmem])

/-- C2: with a completion in flight, `cancel()` moves the status to
"cancelled", leaves the `error` field exactly as it was, keeps the message
list unchanged, and — because the subscription is torn down — any adapter
emissions delivered afterwards (to any subscription id) reach a controller
with no active subscription and change nothing at all. -/
theorem c2_cancel_frame (cfg : Cfg) (s : CState) (_hActive : s.active.isSome = true) :
    (cancel s).status = .cancelled ∧
    (cancel s).error = s.error ∧
    (cancel s).messages = s.messages ∧
    ∀ post : List Op, (∀ op ∈ post, op.isDeliver = true) →
      runFrom cfg (cancel s) post = cancel s := by
  refine ⟨rfl, rfl, rfl, fun post hpost => ?_⟩
  exact runFrom_deliver_only cfg (cancel s) rfl post hpost

/-- Witness for C2: after `send "X"` a completion is in flight; cancelling
yields status "cancelled" with `error` and `messages` untouched, and a late
emission from the torn-down subscription leaves the state frozen. -/
theorem c2_cancel_frame_witness :
    (Chat.run witCfg [.send "X" []]).active.isSome = true ∧
    (cancel (Chat.run witCfg [.send "X" []])).status = .cancelled ∧
    (cancel (Chat.run witCfg [.send "X" []])).error = (Chat.run witCfg [.send "X" []]).error ∧
    (cancel (Chat.run witCfg [.send "X" []])).messages = (Chat.run witCfg [.send "X" []]).messages ∧
    runFrom witCfg (cancel (Chat.run witCfg [.send "X" []]))
        [.deliver 0 (.next (.str "late"))] =
      cancel (Chat.run witCfg [.send "X" []]) := by
  have h := c2_cancel_frame witCfg (Chat.run witCfg [.send "X" []]) (by decide)
  exact ⟨by decide, h.1, h.2.1, h.2.2.1,
    h.2.2.2 [.deliver 0 (.next (.str "late"))] (by decide)⟩

/-- C8: `send` with content that trims to the empty string and `retryLast`
with no retained baseline are complete no-ops on the controller state, and
`retryLast` on a fresh controller leaves the initial state unchanged
(in particular zero messages and status "idle" for the default empty
`initialMessages`).  The embedding is total, so neither operation can throw. -/
theorem c8_noop_guards (cfg : Cfg) (s : CState) (content : String)
    (meta : List (String × String)) :
    ((jsTrim content).length = 0 → send cfg s content meta = s) ∧
    (s.lastRequestMessages = none → retryLast cfg s = s) ∧
    Chat.run cfg [.retryLast] = initState cfg ∧
    (Chat.run cfg [.retryLast]).status = .idle ∧
    (cfg.initialMessages = [] → (Chat.run cfg [.retryLast]).messages.length = 0) := by
  have hretry : ∀ t : CState, t.lastRequestMessages = none → retryLast cfg t = t := by
    intro t ht
    unfold retryLast
    rw [ht]
  have hrun : Chat.run cfg [.retryLast] = initState cfg := hretry (initState cfg) rfl
  refine ⟨fun h => ?_, hretry s, hrun, by rw [hrun]; rfl, fun hinit => ?_⟩
  · unfold send
    simp [h]
  · rw [hrun]
    simp [initState, hinit]

/-- Witness for C8: blank `send` and baseline-less `retryLast` leave a fresh
controller exactly in its initial state. -/
theorem c8_noop_guards_witness :
    send witCfg (initState witCfg) "   " [] = initState witCfg ∧
    retryLast witCfg (initState witCfg) = initState witCfg ∧
    (Chat.run witCfg [.retryLast]).messages.length = 0 := by
  have h := c8_noop_guards witCfg (initState witCfg) "   " []
  exact ⟨h.1 (by decide), h.2.1 rfl, h.2.2.2.2 rfl⟩

/-- C9: an error delivered on the active completion's failure channel puts the
controller in status "error" with `state.error` the very error value that was
delivered (no wrapping or replacement is even expressible: the stored value is
the delivered one), tears down the active subscription, and does not touch the
message list (no emission on the messages subject either). -/
theorem c9_error_verbatim (cfg : Cfg) (s : CState) (k : Nat) (aid : String) (e : ErrVal)
    (h : s.active = some { subId := k, assistantId := aid }) :
    (step cfg s (.deliver k (.errorEv e))).status = .error ∧
    (step cfg s (.deliver k (.errorEv e))).error = some e ∧
    (step cfg s (.deliver k (.errorEv e))).messages = s.messages ∧
    (step cfg s (.deliver k (.errorEv e))).msgLog = s.msgLog ∧
    (step cfg s (.deliver k (.errorEv e))).active = none := by
  simp [step, deliver, h, handleEvent, setError, setStatus, releaseActiveRequest]

/-- Witness for C9: a concrete failing completion surfaces the exact error
value and status "error". -/
theorem c9_error_verbatim_witness :
    (step witCfg (Chat.run witCfg [.send "X" []]) (.deliver 0 (.errorEv (.err 7)))).status
        = .error ∧
    (step witCfg (Chat.run witCfg [.send "X" []]) (.deliver 0 (.errorEv (.err 7)))).error
        = some (.err 7) ∧
    (step witCfg (Chat.run witCfg [.send "X" []]) (.deliver 0 (.errorEv (.err 7)))).messages
        = (Chat.run witCfg [.send "X" []]).messages := by
  have h := c9_error_verbatim witCfg (Chat.run witCfg [.send "X" []]) 0 "m1" (.err 7) (by decide)
  exact ⟨h.1, h.2.1, h.2.2.1⟩

theorem send_not_blank (cfg : Cfg) (s : CState) (content : String)
    (meta : List (String × String)) (h : (jsTrim content).length ≠ 0) :
    send cfg s content meta =
      { messages := s.messages ++ [sentUserMessage cfg s content meta,
          placeholderMessage cfg (s.tick + 1)]
        status := .loading
        error := none
        lastRequestMessages := some (s.messages ++ [sentUserMessage cfg s content meta])
        active := some ⟨s.subCounter, (placeholderMessage cfg (s.tick + 1)).id⟩
        tick := s.tick + 2
        subCounter := s.subCounter + 1
        msgLog := s.msgLog ++ [s.messages ++ [sentUserMessage cfg s content meta,
          placeholderMessage cfg (s.tick + 1)]] } := by
  unfold send
  simp [h, createMessage, releaseActiveRequest, setMessages, runCompletion, setStatus,
    setError, sentUserMessage, placeholderMessage]

theorem retryLast_some (cfg : Cfg) (s : CState) (l : List ChatMessage)
    (h : s.lastRequestMessages = some l) :
    retryLast cfg s =
      { messages := l ++ [placeholderMessage cfg s.tick]
        status := .loading
        error := none
        lastRequestMessages := some l
        active := some ⟨s.subCounter, (placeholderMessage cfg s.tick).id⟩
        tick := s.tick + 1
        subCounter := s.subCounter + 1
        msgLog := s.msgLog ++ [l ++ [placeholderMessage cfg s.tick]] } := by
  unfold retryLast
  rw [h]
  simp [createMessage, releaseActiveRequest, setMessages, runCompletion, setStatus,
    setError, placeholderMessage]

theorem send_blank (cfg : Cfg) (s : CState) (content : String)
    (meta : List (String × String)) (h : (jsTrim content).length = 0) :
    send cfg s content meta = s := by
  unfold send
  simp [h]

theorem retryLast_none (cfg : Cfg) (s : CState) (h : s.lastRequestMessages = none) :
    retryLast cfg s = s := by
  unfold retryLast
  rw [h]

theorem baselineInv_step (cfg : Cfg) (s : CState) (op : Op) (h : BaselineInv s) :
    BaselineInv (step cfg s op) := by
  cases op with
  | send content meta =>
    by_cases hb : (jsTrim content).length = 0
    · rw [step, send_blank cfg s content meta hb]
      exact h
    · rw [step, send_not_blank cfg s content meta hb]
      intro l hl
      cases hl
      simp
  | retryLast =>
    cases hl : s.lastRequestMessages with
    | none =>
      rw [step, retryLast_none cfg s hl]
      exact h
    | some l =>
      rw [step, retryLast_some cfg s l hl]
      intro l2 hl2
      cases hl2
      simp
  | cancel =>
    intro l hl
    exact h l hl
  | deliver k event =>
    intro l hl
    cases hact : s.active with
    | none =>
      rw [step, deliver_inactive s k event hact] at hl ⊢
      exact h l hl
    | some r =>
      simp only [step, deliver, hact] at hl ⊢
      by_cases hk : r.subId = k
      · rw [if_pos hk] at hl ⊢
        rw [handleEvent_length]
        exact h l (by rw [← handleEvent_lastRequest s r.assistantId event]; exact hl)
      · rw [if_neg hk] at hl ⊢
        exact h l hl

theorem messages_length_le_step (cfg : Cfg) (s : CState) (op : Op) (h : BaselineInv s) :
    s.messages.length ≤ (step cfg s op).messages.length := by
  cases op with
  | send content meta =>
    by_cases hb : (jsTrim content).length = 0
    · rw [step, send_blank cfg s content meta hb]
    · rw [step, send_not_blank cfg s content meta hb]
      simp only [List.length_append, List.length_cons, List.length_nil]
      omega
  | retryLast =>
    cases hl : s.lastRequestMessages with
    | none => rw [step, retryLast_none cfg s hl]
    | some l =>
      rw [step, retryLast_some cfg s l hl]
      have := h l hl
      simp only [List.length_append, List.length_cons, List.length_nil]
      omega
  | cancel => exact Nat.le_refl _
  | deliver k event =>
    cases hact : s.active with
    | none => rw [step, deliver_inactive s k event hact]
    | some r =>
      simp only [step, deliver, hact]
      by_cases hk : r.subId = k
      · rw [if_pos hk, handleEvent_length]
      · rw [if_neg hk]

theorem baselineInv_runFrom (cfg : Cfg) (ops : List Op) :
    ∀ s : CState, BaselineInv s → BaselineInv (runFrom cfg s ops) := by
  induction ops with
  | nil => exact fun s h => h
  | cons op rest ih =>
    intro s h
    exact ih (step cfg s op) (baselineInv_step cfg s op h)

theorem baselineInv_run (cfg : Cfg) (ops : List Op) : BaselineInv (Chat.run cfg ops) :=
  baselineInv_runFrom cfg ops (initState cfg) (fun _ hl => by simp [initState] at hl)

theorem run_append_op (cfg : Cfg) (ops : List Op) (op : Op) :
    Chat.run cfg (ops ++ [op]) = step cfg (Chat.run cfg ops) op := by
  simp [Chat.run, runFrom, List.foldl_append]

theorem string_length_zero (d : String) (h : d.length = 0) : d = "" := by
  cases d with
  | mk data =>
    cases data with
    | nil => rfl
    | cons c rest => simp [String.length] at h

theorem appendDelta_messages (s : CState) (aid d : String) (pre : List ChatMessage)
    (a : ChatMessage) (hmsg : s.messages = pre ++ [a]) (ha : a.id = aid)
    (hpre : ∀ m ∈ pre, m.id ≠ aid) :
    (appendDelta s aid d).messages = pre ++ [{ a with content := a.content ++ d }] := by
  by_cases hd : d.length > 0
  · simp only [appendDelta, if_pos hd, setMessages, setStatus]
    rw [hmsg, List.map_append]
    congr 1
    · rw [List.map_congr_left fun m hm => if_neg (hpre m hm)]
      exact List.map_id pre
    · simp [ha]
  · have hde : d = "" := string_length_zero d (by omega)
    subst hde
    have hae : ({ a with content := a.content ++ "" } : ChatMessage) = a := by
      rw [String.append_empty]
    rw [hae]
    simp only [appendDelta, String.length_empty, gt_iff_lt, Nat.lt_irrefl, if_false]
    exact hmsg

theorem deliver_next (s : CState) (k : Nat) (r : ActiveReq) (chunk : ChatChunk)
    (hact : s.active = some r) (hk : r.subId = k) :
    deliver s k (.next chunk) =
      (if chunkIsDone chunk then
        finishRequest (appendDelta s r.assistantId (chunkToText chunk))
      else appendDelta s r.assistantId (chunkToText chunk)) := by
  simp only [deliver, hact, if_pos hk, handleEvent]

theorem deliver_complete (s : CState) (k : Nat) (r : ActiveReq)
    (hact : s.active = some r) (hk : r.subId = k) :
    deliver s k .complete = finishRequest s := by
  simp only [deliver, hact, if_pos hk, handleEvent]

theorem runFrom_str_deltas (cfg : Cfg) (k : Nat) (frs : List String) :
    ∀ (s : CState) (pre : List ChatMessage) (a : ChatMessage),
    s.messages = pre ++ [a] → s.active = some ⟨k, a.id⟩ → (∀ m ∈ pre, m.id ≠ a.id) →
    (runFrom cfg s (frs.map fun f => Op.deliver k (.next (.str f)))).messages =
        pre ++ [{ a with content := frs.foldl (fun acc f => acc ++ f) a.content }] ∧
    (runFrom cfg s (frs.map fun f => Op.deliver k (.next (.str f)))).active =
        some ⟨k, a.id⟩ := by
  induction frs with
  | nil =>
    intro s pre a hmsg hact hpre
    exact ⟨hmsg, hact⟩
  | cons f rest ih =>
    intro s pre a hmsg hact hpre
    have hstep : step cfg s (.deliver k (.next (.str f))) = appendDelta s a.id f := by
      rw [step, deliver_next s k ⟨k, a.id⟩ (.str f) hact rfl]
      simp [chunkIsDone, chunkToText]
    have hmsg2 : (appendDelta s a.id f).messages =
        pre ++ [{ a with content := a.content ++ f }] :=
      appendDelta_messages s a.id f pre a hmsg rfl hpre
    have hact2 : (appendDelta s a.id f).active = some ⟨k, a.id⟩ := by
      rw [appendDelta_active]
      exact hact
    have := ih (appendDelta s a.id f) pre { a with content := a.content ++ f } hmsg2 hact2 hpre
    simpa [runFrom, hstep] using this

/-- C1 counterexample: the claim's "no message is ever deleted" fails.  With
sequential ids, after `send "X"` the assistant placeholder "m1" is in the
message list, but `retryLast` rebuilds the list as the retained baseline plus
a fresh placeholder "m2", so the message "m1" has been removed — an operation
sequence consisting only of `send` and `retryLast` deletes a message. -/
theorem c1_counterexample :
    ∃ msg : ChatMessage,
      msg ∈ (Chat.run witCfg [.send "X" []]).messages ∧
      msg ∉ (Chat.run witCfg [.send "X" [], .retryLast]).messages := by
  refine ⟨{ id := "m1", role := .assistant, content := "", createdAt := 101, meta := none },
    ?_, ?_⟩
  · decide
  · decide

/-- C1 (amended): across every sequence of controller operations the length of
`messages` never decreases (`retryLast` replaces the trailing assistant
placeholder, keeping the length equal; everything else appends or leaves the
list alone — but the replacement means individual messages can be dropped,
which is why the claim's parenthetical "no message is ever deleted" had to be
removed), and immediately after any successful (non-blank) `send` the last two
entries are the new user message followed by the empty assistant placeholder,
in that order. -/
theorem c1_monotone_and_send_suffix (cfg : Cfg) (ops : List Op) (op : Op) :
    (Chat.run cfg ops).messages.length ≤ (Chat.run cfg (ops ++ [op])).messages.length ∧
    (∀ content meta, op = Op.send content meta → (jsTrim content).length ≠ 0 →
      (Chat.run cfg (ops ++ [op])).messages =
        (Chat.run cfg ops).messages ++
          [sentUserMessage cfg (Chat.run cfg ops) content meta,
            placeholderMessage cfg ((Chat.run cfg ops).tick + 1)] ∧
      (sentUserMessage cfg (Chat.run cfg ops) content meta).role = .user ∧
      (placeholderMessage cfg ((Chat.run cfg ops).tick + 1)).role = .assistant ∧
      (placeholderMessage cfg ((Chat.run cfg ops).tick + 1)).content = "") := by
  constructor
  · rw [run_append_op cfg ops op]
    exact messages_length_le_step cfg (Chat.run cfg ops) op (baselineInv_run cfg ops)
  · intro content meta hop hcontent
    subst hop
    rw [run_append_op cfg ops (.send content meta), step,
      send_not_blank cfg (Chat.run cfg ops) content meta hcontent]
    exact ⟨rfl, rfl, rfl, rfl⟩

/-- Witness for C1 (amended): a concrete two-operation run in which the second
`send` keeps the length non-decreasing and appends the (user, placeholder)
pair. -/
theorem c1_monotone_and_send_suffix_witness :
    (Chat.run witCfg [.send "X" []]).messages.length ≤
      (Chat.run witCfg [.send "X" [], .send "Y" []]).messages.length ∧
    (Chat.run witCfg [.send "X" [], .send "Y" []]).messages =
      (Chat.run witCfg [.send "X" []]).messages ++
        [sentUserMessage witCfg (Chat.run witCfg [.send "X" []]) "Y" [],
          placeholderMessage witCfg ((Chat.run witCfg [.send "X" []]).tick + 1)] := by
  have h := c1_monotone_and_send_suffix witCfg [.send "X" []] (.send "Y" [])
  exact ⟨h.1, (h.2 "Y" [] rfl (by decide)).1⟩

/-- C4: a `send` whose content trims non-empty appends exactly the user
message (trimmed content; `meta` attached only when it has at least one key)
followed by the empty assistant placeholder, grows `messages` by exactly 2,
and performs the append as one atomic update: the messages subject emits
exactly once, with the final list. -/
theorem c4_send_appends_pair (cfg : Cfg) (s : CState) (content : String)
    (meta : List (String × String)) (h : (jsTrim content).length ≠ 0) :
    (send cfg s content meta).messages =
      s.messages ++ [sentUserMessage cfg s content meta, placeholderMessage cfg (s.tick + 1)] ∧
    (send cfg s content meta).messages.length = s.messages.length + 2 ∧
    (sentUserMessage cfg s content meta).role = .user ∧
    (sentUserMessage cfg s content meta).content = jsTrim content ∧
    (sentUserMessage cfg s content meta).meta =
      (if meta.length > 0 then some meta else none) ∧
    (placeholderMessage cfg (s.tick + 1)).role = .assistant ∧
    (placeholderMessage cfg (s.tick + 1)).content = "" ∧
    (send cfg s content meta).msgLog =
      s.msgLog ++ [(send cfg s content meta).messages] := by
  rw [send_not_blank cfg s content meta h]
  refine ⟨rfl, by simp, rfl, rfl, rfl, rfl, rfl, rfl⟩

/-- Witness for C4: sending "  hello  " with a one-key meta appends the
trimmed user message carrying the meta, then the empty placeholder. -/
theorem c4_send_appends_pair_witness :
    (send witCfg (initState witCfg) "  hello  " [("source", "test")]).messages =
      [sentUserMessage witCfg (initState witCfg) "  hello  " [("source", "test")],
        placeholderMessage witCfg 1] ∧
    (sentUserMessage witCfg (initState witCfg) "  hello  " [("source", "test")]).content
        = "hello" ∧
    (sentUserMessage witCfg (initState witCfg) "  hello  " [("source", "test")]).meta
        = some [("source", "test")] ∧
    (send witCfg (initState witCfg) "  hello  " [("source", "test")]).messages.length = 2 := by
  have h := c4_send_appends_pair witCfg (initState witCfg) "  hello  " [("source", "test")]
    (by decide)
  refine ⟨?_, by decide, by decide, ?_⟩
  · rw [h.1]
    rfl
  · rw [h.2.1]
    rfl

theorem run_cons (cfg : Cfg) (op : Op) (ops : List Op) :
    Chat.run cfg (op :: ops) = runFrom cfg (step cfg (initState cfg) op) ops := rfl

theorem runFrom_append (cfg : Cfg) (s : CState) (l1 l2 : List Op) :
    runFrom cfg s (l1 ++ l2) = runFrom cfg (runFrom cfg s l1) l2 :=
  List.foldl_append (step cfg) s l1 l2

theorem run_append (cfg : Cfg) (l1 l2 : List Op) :
    Chat.run cfg (l1 ++ l2) = runFrom cfg (Chat.run cfg l1) l2 :=
  runFrom_append cfg (initState cfg) l1 l2

theorem send_initial_shape (cfg : Cfg) (content : String) (meta : List (String × String))
    (h : (jsTrim content).length ≠ 0)
    (hid : cfg.idGen 0 ≠ cfg.idGen 1)
    (hinit : ∀ m ∈ cfg.initialMessages, m.id ≠ cfg.idGen 1) :
    (send cfg (initState cfg) content meta).messages =
      (cfg.initialMessages ++ [sentUserMessage cfg (initState cfg) content meta]) ++
        [placeholderMessage cfg 1] ∧
    (send cfg (initState cfg) content meta).active =
      some ⟨0, (placeholderMessage cfg 1).id⟩ ∧
    ∀ m ∈ cfg.initialMessages ++ [sentUserMessage cfg (initState cfg) content meta],
      m.id ≠ (placeholderMessage cfg 1).id := by
  rw [send_not_blank cfg (initState cfg) content meta h]
  refine ⟨by simp [initState], by simp [initState], fun m hm => ?_⟩
  rcases List.mem_append.1 hm with hm | hm
  · exact hinit m hm
  · rcases List.mem_singleton.1 hm with rfl
    exact hid

/-- C5: within one completion cycle every fragment the adapter emits is
appended verbatim to the current assistant message, in emission order: for an
arbitrary fragment list the final assistant content is exactly the left-fold
concatenation of the fragments (`String.join`), and after the sequence
completes the status is "idle".  (The fragment list is arbitrary, so
duplicates are appended twice, nothing is reordered, coalesced or dropped; in
particular fragments "A", "B" followed by completion give content "AB".) -/
theorem c5_fragments_in_order (cfg : Cfg) (content : String)
    (meta : List (String × String)) (frs : List String)
    (h : (jsTrim content).length ≠ 0)
    (hid : cfg.idGen 0 ≠ cfg.idGen 1)
    (hinit : ∀ m ∈ cfg.initialMessages, m.id ≠ cfg.idGen 1) :
    (Chat.run cfg (Op.send content meta ::
          ((frs.map fun f => Op.deliver 0 (.next (.str f))) ++
            [Op.deliver 0 .complete]))).messages.map (fun m => m.content) =
      cfg.initialMessages.map (fun m => m.content) ++ [jsTrim content, String.join frs] ∧
    (Chat.run cfg (Op.send content meta ::
        ((frs.map fun f => Op.deliver 0 (.next (.str f))) ++
          [Op.deliver 0 .complete]))).status = .idle := by
  obtain ⟨hmsg1, hact1, hpre⟩ := send_initial_shape cfg content meta h hid hinit
  rw [run_cons, runFrom_append]
  have hstep1 : step cfg (initState cfg) (.send content meta) =
      send cfg (initState cfg) content meta := rfl
  rw [hstep1]
  obtain ⟨hmsgs, hacts⟩ := runFrom_str_deltas cfg 0 frs
    (send cfg (initState cfg) content meta)
    (cfg.initialMessages ++ [sentUserMessage cfg (initState cfg) content meta])
    (placeholderMessage cfg 1) hmsg1 hact1 hpre
  have hfinal : runFrom cfg
      (runFrom cfg (send cfg (initState cfg) content meta)
        (frs.map fun f => Op.deliver 0 (.next (.str f)))) [Op.deliver 0 .complete] =
      finishRequest (runFrom cfg (send cfg (initState cfg) content meta)
        (frs.map fun f => Op.deliver 0 (.next (.str f)))) := by
    show step cfg _ (.deliver 0 .complete) = _
    rw [step, deliver_complete _ 0 ⟨0, (placeholderMessage cfg 1).id⟩ hacts rfl]
  rw [hfinal]
  constructor
  · show (runFrom cfg (send cfg (initState cfg) content meta)
        (frs.map fun f => Op.deliver 0 (.next (.str f)))).messages.map
          (fun m => m.content) = _
    rw [hmsgs]
    simp [sentUserMessage, placeholderMessage, String.join]
  · rfl

/-- Witness for C5: fragments "A" then "B" then completion yield assistant
content "AB" and status "idle". -/
theorem c5_fragments_in_order_witness :
    (Chat.run witCfg (Op.send "hi" [] ::
          (((["A", "B"] : List String).map fun f => Op.deliver 0 (.next (.str f))) ++
            [Op.deliver 0 .complete]))).messages.map (fun m => m.content) =
      ["hi", "AB"] ∧
    (Chat.run witCfg (Op.send "hi" [] ::
        (((["A", "B"] : List String).map fun f => Op.deliver 0 (.next (.str f))) ++
          [Op.deliver 0 .complete]))).status = .idle := by
  have h := c5_fragments_in_order witCfg "hi" [] ["A", "B"] (by decide) (by decide)
    (by decide)
  refine ⟨?_, h.2⟩
  rw [h.1]
  rfl

/-- C6: on the low-level adapter path a chunk with `done: true` first has its
content appended to the assistant message and then finalizes the cycle at
once: status becomes "idle" and the subscription is torn down (`active` is
cleared) without any completion of the adapter sequence having been delivered,
and every later adapter emission is a complete no-op.  For chunks
`{content: c1, done: false}`, `{content: c2, done: true}` the final assistant
content is `c1 ++ c2` (so "Hello" / " World" give "Hello World"). -/
theorem c6_done_chunk_finalizes (cfg : Cfg) (content : String)
    (meta : List (String × String)) (c1 c2 : String)
    (h : (jsTrim content).length ≠ 0)
    (hid : cfg.idGen 0 ≠ cfg.idGen 1)
    (hinit : ∀ m ∈ cfg.initialMessages, m.id ≠ cfg.idGen 1) :
    (Chat.run cfg [Op.send content meta, Op.deliver 0 (.next (.obj c1 false)),
          Op.deliver 0 (.next (.obj c2 true))]).messages.map (fun m => m.content) =
      cfg.initialMessages.map (fun m => m.content) ++ [jsTrim content, c1 ++ c2] ∧
    (Chat.run cfg [Op.send content meta, Op.deliver 0 (.next (.obj c1 false)),
        Op.deliver 0 (.next (.obj c2 true))]).status = .idle ∧
    (Chat.run cfg [Op.send content meta, Op.deliver 0 (.next (.obj c1 false)),
        Op.deliver 0 (.next (.obj c2 true))]).active = none ∧
    ∀ post : List Op, (∀ op ∈ post, op.isDeliver = true) →
      Chat.run cfg ([Op.send content meta, Op.deliver 0 (.next (.obj c1 false)),
          Op.deliver 0 (.next (.obj c2 true))] ++ post) =
        Chat.run cfg [Op.send content meta, Op.deliver 0 (.next (.obj c1 false)),
          Op.deliver 0 (.next (.obj c2 true))] := by
  obtain ⟨hmsg1, hact1, hpre⟩ := send_initial_shape cfg content meta h hid hinit
  have hstep2 : step cfg (send cfg (initState cfg) content meta)
      (.deliver 0 (.next (.obj c1 false))) =
      appendDelta (send cfg (initState cfg) content meta)
        (placeholderMessage cfg 1).id c1 := by
    rw [step, deliver_next _ 0 ⟨0, (placeholderMessage cfg 1).id⟩ _ hact1 rfl]
    simp [chunkIsDone, chunkToText]
  have hmsg2 := appendDelta_messages (send cfg (initState cfg) content meta)
    (placeholderMessage cfg 1).id c1 _ _ hmsg1 rfl hpre
  have hact2 : (appendDelta (send cfg (initState cfg) content meta)
      (placeholderMessage cfg 1).id c1).active =
      some ⟨0, (placeholderMessage cfg 1).id⟩ := by
    rw [appendDelta_active]
    exact hact1
  have hstep3 : step cfg (appendDelta (send cfg (initState cfg) content meta)
      (placeholderMessage cfg 1).id c1) (.deliver 0 (.next (.obj c2 true))) =
      finishRequest (appendDelta (appendDelta (send cfg (initState cfg) content meta)
        (placeholderMessage cfg 1).id c1) (placeholderMessage cfg 1).id c2) := by
    rw [step, deliver_next _ 0 ⟨0, (placeholderMessage cfg 1).id⟩ _ hact2 rfl]
    simp [chunkIsDone, chunkToText]
  have hmsg3 := appendDelta_messages (appendDelta (send cfg (initState cfg) content meta)
    (placeholderMessage cfg 1).id c1) (placeholderMessage cfg 1).id c2 _ _ hmsg2 rfl hpre
  have hrun : Chat.run cfg [Op.send content meta, Op.deliver 0 (.next (.obj c1 false)),
      Op.deliver 0 (.next (.obj c2 true))] =
      finishRequest (appendDelta (appendDelta (send cfg (initState cfg) content meta)
        (placeholderMessage cfg 1).id c1) (placeholderMessage cfg 1).id c2) := by
    show step cfg (step cfg (step cfg (initState cfg) (.send content meta))
      (.deliver 0 (.next (.obj c1 false)))) (.deliver 0 (.next (.obj c2 true))) = _
    rw [show step cfg (initState cfg) (.send content meta) =
      send cfg (initState cfg) content meta from rfl, hstep2, hstep3]
  refine ⟨?_, ?_, ?_, ?_⟩
  · rw [hrun]
    show (appendDelta (appendDelta (send cfg (initState cfg) content meta)
      (placeholderMessage cfg 1).id c1) (placeholderMessage cfg 1).id c2).messages.map
        (fun m => m.content) = _
    rw [hmsg3]
    simp [sentUserMessage, placeholderMessage, String.empty_append]
  · rw [hrun]
    rfl
  · rw [hrun]
    rfl
  · intro post hpost
    rw [run_append cfg [Op.send content meta, Op.deliver 0 (.next (.obj c1 false)),
      Op.deliver 0 (.next (.obj c2 true))] post]
    apply runFrom_deliver_only
    · rw [hrun]
      rfl
    · exact hpost

/-- Witness for C6: chunks `{content:"Hello",done:false}` then
`{content:" World",done:true}` give final content "Hello World", status
"idle", a torn-down subscription, and a late emission changes nothing. -/
theorem c6_done_chunk_finalizes_witness :
    (Chat.run witCfg [Op.send "test" [], Op.deliver 0 (.next (.obj "Hello" false)),
          Op.deliver 0 (.next (.obj " World" true))]).messages.map (fun m => m.content) =
      ["test", "Hello World"] ∧
    (Chat.run witCfg [Op.send "test" [], Op.deliver 0 (.next (.obj "Hello" false)),
        Op.deliver 0 (.next (.obj " World" true))]).status = .idle ∧
    Chat.run witCfg ([Op.send "test" [], Op.deliver 0 (.next (.obj "Hello" false)),
          Op.deliver 0 (.next (.obj " World" true))] ++
        [Op.deliver 0 (.next (.str "late"))]) =
      Chat.run witCfg [Op.send "test" [], Op.deliver 0 (.next (.obj "Hello" false)),
        Op.deliver 0 (.next (.obj " World" true))] := by
  have h := c6_done_chunk_finalizes witCfg "test" [] "Hello" " World" (by decide)
    (by decide) (by decide)
  refine ⟨?_, h.2.1, h.2.2.2 [Op.deliver 0 (.next (.str "late"))] (by decide)⟩
  rw [h.1]
  rfl

/-- C10: `runCompletion` always moves the status to "loading" and resets the
`error` field to `null` before its new subscription is registered (its
emissions arrive only as later `deliver` steps), and both of its callers —
non-blank `send` and baseline-bearing `retryLast` — therefore end their
synchronous part in status "loading" with a cleared error field. -/
theorem c10_loading_clears_error (cfg : Cfg) (s : CState) (content : String)
    (meta : List (String × String)) (base : List ChatMessage) (aid : String) :
    ((runCompletion s base aid).status = .loading ∧ (runCompletion s base aid).error = none) ∧
    ((jsTrim content).length ≠ 0 →
      (send cfg s content meta).status = .loading ∧ (send cfg s content meta).error = none) ∧
    (∀ l, s.lastRequestMessages = some l →
      (retryLast cfg s).status = .loading ∧ (retryLast cfg s).error = none) := by
  refine ⟨⟨rfl, rfl⟩, fun h => ?_, fun l hl => ?_⟩
  · unfold send
    simp [h, createMessage, setMessages, runCompletion, setStatus, setError,
      releaseActiveRequest]
  · unfold retryLast
    rw [hl]
    simp [createMessage, setMessages, runCompletion, setStatus, setError,
      releaseActiveRequest]

/-- Witness for C10: after an error cycle, a retry re-enters "loading" with
the retained error cleared to `null`. -/
theorem c10_loading_clears_error_witness :
    (retryLast witCfg (Chat.run witCfg [.send "X" [], .deliver 0 (.errorEv (.err 7))])).status
        = .loading ∧
    (retryLast witCfg (Chat.run witCfg [.send "X" [], .deliver 0 (.errorEv (.err 7))])).error
        = none ∧
    (send witCfg (initState witCfg) " hi " []).status = .loading ∧
    (send witCfg (initState witCfg) " hi " []).error = none := by
  have h := c10_loading_clears_error witCfg
    (Chat.run witCfg [.send "X" [], .deliver 0 (.errorEv (.err 7))]) " hi " [] [] ""
  have hsend := c10_loading_clears_error witCfg (initState witCfg) " hi " [] [] ""
  have hl := h.2.2
    [{ id := "m0", role := .user, content := "X", createdAt := 100, meta := none }]
    (by decide)
  exact ⟨hl.1, hl.2, (hsend.2.1 (by decide)).1, (hsend.2.1 (by decide)).2⟩

end Chat

/-- C3 counterexample: the claim's "the underlying model capability
(doStream / doGenerate) is never invoked at all" fails: `streamText` calls
`model.doStream(request)` and `generateText` calls `model.doGenerate(request)`
eagerly when they are called, before the abort check (which lives inside
`applyAbortSignal` and runs only at subscribe time), so with a pre-aborted
signal each capability method has still been invoked once. -/
theorem c3_counterexample :
    preAbortedOptions.signal = some { aborted := true, reason := none } ∧
    (Sdk.streamText witModel preAbortedOptions).doStreamCalls ≠ [] ∧
    (Sdk.generateText witModel preAbortedOptions).doGenerateCalls ≠ [] := by
  refine ⟨rfl, ?_, ?_⟩
  · decide
  · decide

/-- C3 (amended): with a cancellation signal already aborted at subscribe
time, each of `streamText`'s three derived sequences and `generateText`'s
sequence fails immediately with the abort error
(`signal.reason ?? DOMException(AbortError)` — the abort-kind
`abortException` whenever no custom reason was attached), emits no values, and
the observable the capability returned is never subscribed, so no underlying
request work is started.  (`doStream` / `doGenerate` themselves are still
invoked eagerly to obtain that observable; see the counterexample.) -/
theorem c3_preaborted_failure (model : Sdk.LanguageModel)
    (options : Sdk.StreamTextOptions) (sig : Sdk.AbortSignal)
    (hsig : options.signal = some sig) (haborted : sig.aborted = true) :
    ((Sdk.streamText model options).streamRun.emitted = [] ∧
      (Sdk.streamText model options).streamRun.terminal = .fail (Sdk.abortErrorOf sig) ∧
      (Sdk.streamText model options).streamRun.sourceSubscribed = false) ∧
    ((Sdk.streamText model options).deltaRun.emitted = [] ∧
      (Sdk.streamText model options).deltaRun.terminal = .fail (Sdk.abortErrorOf sig) ∧
      (Sdk.streamText model options).deltaRun.sourceSubscribed = false) ∧
    ((Sdk.streamText model options).textRun.emitted = [] ∧
      (Sdk.streamText model options).textRun.terminal = .fail (Sdk.abortErrorOf sig) ∧
      (Sdk.streamText model options).textRun.sourceSubscribed = false) ∧
    ((Sdk.generateText model options).resultRun.emitted = [] ∧
      (Sdk.generateText model options).resultRun.terminal = .fail (Sdk.abortErrorOf sig) ∧
      (Sdk.generateText model options).resultRun.sourceSubscribed = false) ∧
    (sig.reason = none → Sdk.abortErrorOf sig = .abortException) := by
  refine ⟨?_, ?_, ?_, ?_, fun hr => ?_⟩
  · simp [Sdk.streamText, Sdk.applyAbortSignal, hsig, haborted, Sdk.tapOnFinish,
      Sdk.sourceRun]
  · simp [Sdk.streamText, Sdk.applyAbortSignal, hsig, haborted, Sdk.tapOnFinish,
      Sdk.deltasOf, Sdk.sourceRun]
  · simp [Sdk.streamText, Sdk.applyAbortSignal, hsig, haborted, Sdk.tapOnFinish,
      Sdk.deltasOf, Sdk.accumulatedOf, Sdk.scanConcat, Sdk.sourceRun]
  · simp [Sdk.generateText, Sdk.applyAbortSignal, hsig, haborted]
  · simp [Sdk.abortErrorOf, hr]

/-- Witness for C3 (amended): a concrete pre-aborted call fails all four
sequences with the default abort exception and never subscribes the source. -/
theorem c3_preaborted_failure_witness :
    (Sdk.streamText witModel preAbortedOptions).streamRun.terminal =
      .fail .abortException ∧
    (Sdk.streamText witModel preAbortedOptions).deltaRun.sourceSubscribed = false ∧
    (Sdk.generateText witModel preAbortedOptions).resultRun.terminal =
      .fail .abortException := by
  have h := c3_preaborted_failure witModel preAbortedOptions
    { aborted := true, reason := none } rfl rfl
  have habort : Sdk.abortErrorOf { aborted := true, reason := none } = .abortException :=
    h.2.2.2.2 rfl
  refine ⟨?_, h.2.1.2.2, ?_⟩
  · rw [h.1.2.1, habort]
  · rw [h.2.2.2.1.2.1, habort]

/-- C7 counterexample: the claim's "invoked synchronously exactly once if and
only if a finish-kind event is observed" fails for a stream that emits two
finish-kind events — `onFinish` is then invoked once per finish event, i.e.
twice. -/
theorem c7_counterexample :
    ¬ (((Sdk.streamText doubleFinishModel onFinishOptions).streamRun.finishCalls.length
          = 1) ↔
        (∃ ev ∈ (Sdk.streamText doubleFinishModel onFinishOptions).streamRun.emitted,
          Sdk.isFinishEvent ev = true)) := by
  decide

/-- C7 (amended): when an `onFinish` callback is supplied, it is invoked (at
the synchronous `tap` stage) once per finish-kind event observed on the
stream, each time with the `{text, usage, finishReason}` of that event
together with a copy of the input messages; if no finish-kind event is
observed — including the pre-aborted case, where nothing is emitted — it is
never invoked.  "Exactly once" therefore holds precisely when exactly one
finish event is observed. -/
theorem c7_onfinish_per_finish_event (model : Sdk.LanguageModel)
    (options : Sdk.StreamTextOptions) (h : options.hasOnFinish = true) :
    (Sdk.streamText model options).streamRun.finishCalls =
      (Sdk.streamText model options).streamRun.emitted.filterMap
        (Sdk.finishResultOf options.messages) ∧
    ((∀ ev ∈ (Sdk.streamText model options).streamRun.emitted,
        Sdk.isFinishEvent ev = false) →
      (Sdk.streamText model options).streamRun.finishCalls = []) := by
  have heq : (Sdk.streamText model options).streamRun.finishCalls =
      (Sdk.streamText model options).streamRun.emitted.filterMap
        (Sdk.finishResultOf options.messages) := by
    simp only [Sdk.streamText, Sdk.tapOnFinish, h, if_true]
    rfl
  refine ⟨heq, fun hnone => ?_⟩
  rw [heq]
  rw [List.filterMap_eq_nil_iff]
  intro ev hev
  have := hnone ev hev
  cases ev with
  | textDelta d => rfl
  | finish t u r => simp [Sdk.isFinishEvent] at this
  | errorEv e => rfl

/-- Witness for C7 (amended): a stream with exactly one finish event invokes
`onFinish` exactly once, with the event's payload and the input messages. -/
theorem c7_onfinish_per_finish_event_witness :
    (Sdk.streamText witModel onFinishOptions).streamRun.finishCalls =
      [{ text := "Hello", usage := witUsage, finishReason := .stop,
          messages := witMessages }] := by
  have h := c7_onfinish_per_finish_event witModel onFinishOptions rfl
  rw [h.1]
  rfl

end RxjsAi
